import Mathlib

/-!
Verification of the swatchdog concurrency core (src/watchdog.rs).

Durations are modelled as nanosecond counts (`Nat`).  Rust's
`Duration - Duration` panics on underflow, so duration subtraction is
modelled as a checked subtraction returning `Option Nat` (`none` models
the panic).  Each thread body is modelled by a step function describing
one iteration of its loop, with the externally supplied events (shutdown
channel outcome, probe outcome, elapsed wall-clock time, channel send
success) as parameters.
-/

namespace Swatchdog

/-- Nanoseconds in one millisecond (`Duration::from_millis(1)`). -/
def msNanos : Nat := 1000000

/-- Rust `Duration` subtraction: panics (here `none`) when the result
would be negative. -/
def durationSub (a b : Nat) : Option Nat := if b ≤ a then some (a - b) else none

/-- `Message::HostInfo(uptime, ping)` — the measurement sent on the sample
channel. -/
structure Measurement where
  uptime : String
  ping : String
deriving DecidableEq, Repr

/-! ## Prober loop (`info_getter_thread`) -/

/-- Outcome of `shutdown_rx.recv_timeout(..)` in `info_getter_thread`:
a value was received (`fired`), the channel was disconnected (`closed`),
or the timeout elapsed (`timeout`). -/
inductive ShutdownEvent where
  | fired
  | closed
  | timeout
deriving DecidableEq, Repr

/-- The timed-wait argument `interval - measure_time` passed to
`recv_timeout` (checked subtraction: `none` models the Rust panic on
underflow). -/
def infoGetterWait (interval cost : Nat) : Option Nat := durationSub interval cost

/-- The wait duration as the specification words it: `interval` minus the
cost with the subtraction clamped at zero (for comparison with
`infoGetterWait`, which is what the code does). -/
def infoGetterWaitSpec (interval cost : Nat) : Nat := interval - cost

/-- The update `measure_time = min(end - start, interval - Duration::from_millis(1))`
performed after a probe; `none` models the panic of
`interval - Duration::from_millis(1)` when `interval < 1ms`. -/
def infoGetterMeasureTime (interval elapsed : Nat) : Option Nat :=
  (durationSub interval msNanos).map (fun cap => min elapsed cap)

/-- `ping` string published by the prober: the formatted duration on probe
success, the empty string `String::new()` on probe failure. -/
def pingText : Option String → String
  | some s => s
  | none => ""

/-- Result of one iteration of the `loop` of `info_getter_thread`. -/
inductive ProberStep where
  /-- A duration subtraction underflowed: the thread panics. -/
  | panicked
  /-- `Ok(_) | Err(Disconnected)` from the shutdown channel: `break`
  before any probe or publish. -/
  | exitShutdown
  /-- Probe performed and measurement built, but `tx.send` failed
  (receiver gone): `break`. -/
  | exitDisconnected (newCost : Nat) (m : Measurement)
  /-- Probe performed, measurement published, loop continues with the
  updated `measure_time`. -/
  | next (newCost : Nat) (m : Measurement)
deriving DecidableEq, Repr

/-- One iteration of `info_getter_thread`'s loop.  `probe` is the outcome
of `ping_host` (formatted duration on success), `elapsed` the wall-clock
time `end - start` of the probe-and-read step, `sendOk` whether
`tx.send` succeeded. -/
def infoGetterIter (interval cost : Nat) (ev : ShutdownEvent)
    (probe : Option String) (uptime : String) (elapsed : Nat)
    (sendOk : Bool) : ProberStep :=
  match infoGetterWait interval cost with
  | none => .panicked
  | some _ =>
    match ev with
    | .fired => .exitShutdown
    | .closed => .exitShutdown
    | .timeout =>
      match infoGetterMeasureTime interval elapsed with
      | none => .panicked
      | some newCost =>
        let m : Measurement := ⟨uptime, pingText probe⟩
        if sendOk then .next newCost m else .exitDisconnected newCost m

/-- The values `measure_time` can hold in `info_getter_thread`: it starts
at `Duration::new(0, 0)` and each probe iteration replaces it via
`infoGetterMeasureTime`. -/
inductive ReachableCost (interval : Nat) : Nat → Prop where
  | init : ReachableCost interval 0
  | step (c e c' : Nat) : ReachableCost interval c →
      infoGetterMeasureTime interval e = some c' → ReachableCost interval c'

/-! ## Reporter loop (`heartbeat_sender_thread`) -/

/-- Outcome of `rx.recv_timeout(..)` in `heartbeat_sender_thread`. -/
inductive RecvEvent where
  | msg (m : Measurement)
  | timeout
  | disconnected
deriving DecidableEq, Repr

/-- Initial reporter state: `last_uptime = String::new()`,
`last_ping = String::new()`. -/
def heartbeatSenderInit : String × String := ("", "")

/-- The reporter's wait bound `params.interval + Duration::from_millis(100)`. -/
def heartbeatSenderWait (interval : Nat) : Nat := interval + 100 * msNanos

/-- One iteration of `heartbeat_sender_thread`'s loop: `none` means the
loop breaks; `some (st, r)` means it continues with state `st` having
emitted the report `r` (the `(uptime, ping)` pair passed to
`send_heartbeat`) when `r` is `some`. -/
def heartbeatSenderIter (st : String × String) (ev : RecvEvent) :
    Option ((String × String) × Option (String × String)) :=
  match ev with
  | .disconnected => none
  | .msg m => some ((m.uptime, m.ping), some (m.uptime, m.ping))
  | .timeout => some (st, some st)

/-! ## Heartbeat URL construction (`send_heartbeat`)

`url.query_pairs_mut().clear().append_pair(..)` serializes pairs in
`application/x-www-form-urlencoded` form: bytes other than ASCII
alphanumerics and `*-._` are percent-encoded, space becomes `+`. -/

/-- Uppercase hexadecimal digit for `n < 16`. -/
def hexUpper (n : Nat) : Char :=
  if n < 10 then Char.ofNat (48 + n) else Char.ofNat (55 + n)

/-- Percent-encoding of one byte. -/
def percentByte (b : Nat) : String :=
  String.mk ['%', hexUpper (b / 16), hexUpper (b % 16)]

/-- UTF-8 bytes of a character. -/
def utf8Bytes (c : Char) : List Nat :=
  let n := c.toNat
  if n < 128 then [n]
  else if n < 2048 then [192 + n / 64, 128 + n % 64]
  else if n < 65536 then [224 + n / 4096, 128 + (n / 64) % 64, 128 + n % 64]
  else [240 + n / 262144, 128 + (n / 4096) % 64, 128 + (n / 64) % 64,
    128 + n % 64]

/-- Characters the form-urlencoded serializer leaves unescaped. -/
def formSafe (c : Char) : Bool :=
  c.isAlphanum || c = '*' || c = '-' || c = '.' || c = '_'

/-- Serialization of one character: space becomes `+`, safe characters
stay, everything else is percent-encoded bytewise. -/
def serializeChar (c : Char) : String :=
  if c = ' ' then "+"
  else if formSafe c then String.singleton c
  else String.join ((utf8Bytes c).map percentByte)

/-- Form-urlencoded serialization of a string. -/
def byteSerialize (s : String) : String :=
  String.join (s.data.map serializeChar)

/-- `append_pair(k, v)` on a query serializer holding `q` so far: a `&`
separator when `q` is nonempty, then the encoded key and value. -/
def appendPair (q k v : String) : String :=
  (if q.data.isEmpty then q else q ++ "&") ++
    byteSerialize k ++ "=" ++ byteSerialize v

/-- The query string built by `send_heartbeat` after `clear()`:
`status=up`, `msg=<uptime>`, `ping=<ping>` appended in order. -/
def sendHeartbeatQuery (uptime ping : String) : String :=
  appendPair (appendPair (appendPair "" "status" "up") "msg" uptime)
    "ping" ping

/-- The components of a parsed `Url` that the watchdog inspects. -/
structure UrlModel where
  scheme : String
  host : Option String
  path : String
  query : Option String
deriving DecidableEq, Repr

/-- The request URL built by `send_heartbeat`: the configured URL with
its query pairs cleared and the three heartbeat pairs appended. -/
def sendHeartbeatUrl (u : UrlModel) (uptime ping : String) : UrlModel :=
  { u with query := some (sendHeartbeatQuery uptime ping) }

/-! ## Watchdog construction (`Watchdog::try_from`) -/

/-- The fields of `args::Args` that `Watchdog::try_from` consumes. -/
structure ArgsModel where
  url : String
  method : String
  interval : Nat
  insecure : Bool
  localAddress : Option String
deriving DecidableEq, Repr

/-- Rust `str::contains` on character lists: substring membership. -/
def isPrefixChars : List Char → List Char → Bool
  | [], _ => true
  | _ :: _, [] => false
  | a :: as, b :: bs => a == b && isPrefixChars as bs

/-- `containsChars pat s` holds when `pat` occurs contiguously in `s`. -/
def containsChars (pat : List Char) : List Char → Bool
  | [] => pat.isEmpty
  | c :: rest => isPrefixChars pat (c :: rest) || containsChars pat rest

/-- Rust `str::contains(pat)` substring test. -/
def strContains (s pat : String) : Bool := containsChars pat.data s.data

/-- The configuration `Watchdog::try_from` produces on success. -/
structure WatchdogCfg where
  url : UrlModel
  method : String
  interval : Nat
  host : String
  ignoreCertErrors : Bool
  localAddress : Option String
deriving DecidableEq, Repr

/-- `Watchdog::try_from(args)`: parse the URL (`parseResult` is the
outcome of `Url::parse`, `none` on parse failure), require a host,
then require the scheme to contain `"http"`.  Error strings are the
`anyhow` contexts and messages of the source. -/
def watchdogTryFrom (parseResult : Option UrlModel) (args : ArgsModel) :
    Except String WatchdogCfg :=
  match parseResult with
  | none => .error "parse url"
  | some url =>
    match url.host with
    | none => .error "no host in url"
    | some h =>
      if !strContains url.scheme "http" then
        .error ("URL scheme is not allowed: " ++ url.scheme)
      else
        .ok { url := url, method := args.method, interval := args.interval,
              host := h, ignoreCertErrors := args.insecure,
              localAddress := args.localAddress }

/-- A sample parsed URL whose scheme is neither `http` nor `https` but
contains `"http"` as a substring. -/
def xhttpUrl : UrlModel :=
  { scheme := "xhttp", host := some "example.com", path := "/", query := none }

/-- A sample parsed URL with an `ftp` scheme. -/
def ftpUrl : UrlModel :=
  { scheme := "ftp", host := some "example.com", path := "/", query := none }

/-- A sample parsed URL with no host component and a non-http scheme. -/
def hostlessUrl : UrlModel :=
  { scheme := "unix", host := none, path := "/run/sock", query := none }

/-- Sample argument values. -/
def sampleArgs : ArgsModel :=
  { url := "http://example.com/", method := "GET", interval := 60000 * msNanos,
    insecure := false, localAddress := none }

end Swatchdog

/-! ## Shared lemmas -/

namespace Swatchdog

/-- When `interval ≥ 1ms`, the `measure_time` update succeeds and caps at
`interval - 1ms`. -/
theorem measureTime_eq (interval elapsed : Nat) (h : msNanos ≤ interval) :
    infoGetterMeasureTime interval elapsed =
      some (min elapsed (interval - msNanos)) := by
  simp [infoGetterMeasureTime, durationSub, h]

/-- When the cost does not exceed the interval, the timed-wait computation
succeeds. -/
theorem wait_eq (interval cost : Nat) (h : cost ≤ interval) :
    infoGetterWait interval cost = some (interval - cost) := by
  simp [infoGetterWait, durationSub, h]

/-! ## Claims -/

/-- Claim C1, counterexample: `Watchdog::try_from` tests
`url.scheme().contains("http")`, a substring test, so construction
succeeds for the scheme `xhttp`, which is neither `http` nor `https`. -/
theorem watchdogTryFrom_accepts_xhttp :
    (watchdogTryFrom (some xhttpUrl) sampleArgs).isOk = true ∧
    xhttpUrl.scheme ≠ "http" ∧ xhttpUrl.scheme ≠ "https" := by decide

/-- Claim C1 (amended): for a parsed URL with a host, construction
succeeds iff the scheme contains `"http"` as a substring; schemes such as
`ftp` are rejected, but so-accepted schemes need not be exactly `http` or
`https`. -/
theorem watchdogTryFrom_ok_iff_scheme_contains_http (u : UrlModel)
    (hst : String) (args : ArgsModel) (hh : u.host = some hst) :
    ((watchdogTryFrom (some u) args).isOk = true ↔
      strContains u.scheme "http" = true) := by
  cases hc : strContains u.scheme "http" <;>
    simp [watchdogTryFrom, hh, hc, Except.isOk, Except.toBool]

/-- Claim C1 witness: the amended claim at the `ftp` URL. -/
theorem watchdogTryFrom_ok_iff_scheme_contains_http_witness :
    ((watchdogTryFrom (some ftpUrl) sampleArgs).isOk = true ↔
      strContains ftpUrl.scheme "http" = true) :=
  watchdogTryFrom_ok_iff_scheme_contains_http ftpUrl "example.com"
    sampleArgs rfl

/-- Claim C2, counterexample: the wait computation
`interval - measure_time` is not clamped; when the cost exceeds the
interval it underflows (Rust panic, modelled as `none`) instead of
producing the clamped value `0`. -/
theorem infoGetterWait_not_clamped :
    infoGetterWait (2 * msNanos) (3 * msNanos) = none ∧
    infoGetterWaitSpec (2 * msNanos) (3 * msNanos) = 0 ∧
    infoGetterWait (2 * msNanos) (3 * msNanos) ≠
      some (infoGetterWaitSpec (2 * msNanos) (3 * msNanos)) := by decide

/-- Claim C2 (amended): whenever `lastMeasurementCost ≤ interval` the wait
duration equals `interval - lastMeasurementCost` (there agreeing with the
clamped subtraction); for larger costs the computation panics rather than
clamping. -/
theorem infoGetterWait_eq_checked_sub (interval cost : Nat)
    (h : cost ≤ interval) :
    infoGetterWait interval cost = some (infoGetterWaitSpec interval cost) :=
  wait_eq interval cost h

/-- Claim C2 witness: the amended claim at `interval = 2ms`,
`cost = 1ms`. -/
theorem infoGetterWait_eq_checked_sub_witness :
    infoGetterWait (2 * msNanos) msNanos =
      some (infoGetterWaitSpec (2 * msNanos) msNanos) :=
  infoGetterWait_eq_checked_sub (2 * msNanos) msNanos (by decide)

/-- Claim C3: after a probe, the new `measure_time` is
`min(elapsed, interval - 1ms)` (whenever `interval ≥ 1ms`, so the cap
itself is well defined). -/
theorem infoGetterMeasureTime_eq_min_cap (interval elapsed : Nat)
    (h : msNanos ≤ interval) :
    infoGetterMeasureTime interval elapsed =
      some (min elapsed (interval - msNanos)) :=
  measureTime_eq interval elapsed h

/-- Claim C3 witness: the update at `interval = 2ms`, `elapsed = 5ms`. -/
theorem infoGetterMeasureTime_eq_min_cap_witness :
    infoGetterMeasureTime (2 * msNanos) (5 * msNanos) =
      some (min (5 * msNanos) (2 * msNanos - msNanos)) :=
  infoGetterMeasureTime_eq_min_cap (2 * msNanos) (5 * msNanos) (by decide)

/-- Claim C4: every non-disconnecting reporter iteration emits exactly one
report — on a received measurement the state is updated to it and reported;
on timeout the existing state is reported unchanged — and the initial
state is a pair of empty strings. -/
theorem heartbeatSenderIter_emits_one_report (st : String × String)
    (m : Measurement) :
    heartbeatSenderIter st (.msg m) =
      some ((m.uptime, m.ping), some (m.uptime, m.ping)) ∧
    heartbeatSenderIter st .timeout = some (st, some st) ∧
    heartbeatSenderInit = ("", "") :=
  ⟨rfl, rfl, rfl⟩

/-- Claim C5: the request URL's query is fully replaced by exactly the
three form-urlencoded pairs `status=up`, `msg=<uptime>`, `ping=<ping>` in
that order, and at `("up 3m", "12ms")` it is literally
`status=up&msg=up+3m&ping=12ms`. -/
theorem sendHeartbeat_query_exact_three_pairs (u : UrlModel)
    (uptime ping : String) :
    (sendHeartbeatUrl u uptime ping).query =
      some (sendHeartbeatQuery uptime ping) ∧
    sendHeartbeatQuery uptime ping =
      "status=up" ++ "&" ++ "msg" ++ "=" ++ byteSerialize uptime ++ "&" ++
        "ping" ++ "=" ++ byteSerialize ping ∧
    sendHeartbeatQuery "up 3m" "12ms" = "status=up&msg=up+3m&ping=12ms" :=
  ⟨rfl, rfl, by decide⟩

/-- Claim C6: on a probe failure the prober publishes a measurement whose
ping field is the empty string, with the uptime still read, and the loop
continues to its next iteration. -/
theorem probe_failure_publishes_empty_ping (interval cost elapsed : Nat)
    (uptime : String) (h1 : cost ≤ interval) (h2 : msNanos ≤ interval) :
    infoGetterIter interval cost .timeout none uptime elapsed true =
      .next (min elapsed (interval - msNanos)) ⟨uptime, ""⟩ := by
  simp [infoGetterIter, infoGetterWait, infoGetterMeasureTime, durationSub,
    h1, h2, pingText]

/-- Claim C6 witness: a failed probe at concrete values. -/
theorem probe_failure_publishes_empty_ping_witness :
    infoGetterIter (2 * msNanos) 0 .timeout none "up 5m" (3 * msNanos)
      true =
      .next (min (3 * msNanos) (2 * msNanos - msNanos)) ⟨"up 5m", ""⟩ :=
  probe_failure_publishes_empty_ping (2 * msNanos) 0 (3 * msNanos) "up 5m"
    (by decide) (by decide)

/-- Claim C7: when the shutdown channel yields a value or is closed, the
prober iteration exits at the timed wait, performing no probe and
publishing nothing, regardless of the probe and send parameters. -/
theorem shutdown_event_exits_without_probe (interval cost elapsed : Nat)
    (ev : ShutdownEvent) (probe : Option String) (uptime : String)
    (sendOk : Bool) (h1 : cost ≤ interval)
    (hev : ev = .fired ∨ ev = .closed) :
    infoGetterIter interval cost ev probe uptime elapsed sendOk =
      .exitShutdown := by
  rcases hev with h | h <;> subst h <;>
    simp [infoGetterIter, infoGetterWait, durationSub, h1]

/-- Claim C7 witness: a fired shutdown signal at concrete values. -/
theorem shutdown_event_exits_without_probe_witness :
    infoGetterIter (2 * msNanos) 0 .fired (some "12ms") "up 5m" 0 true =
      .exitShutdown :=
  shutdown_event_exits_without_probe (2 * msNanos) 0 0 .fired (some "12ms")
    "up 5m" true (by decide) (Or.inl rfl)

/-- Claim C8: sample-channel disconnection is a normal exit for both
loops — a reporter iteration seeing disconnection exits without emitting a
report, and a prober iteration whose send fails exits rather than
panicking. -/
theorem channel_disconnection_is_normal_exit (st : String × String)
    (interval cost elapsed : Nat) (probe : Option String) (uptime : String)
    (h1 : cost ≤ interval) (h2 : msNanos ≤ interval) :
    heartbeatSenderIter st .disconnected = none ∧
    infoGetterIter interval cost .timeout probe uptime elapsed false =
      .exitDisconnected (min elapsed (interval - msNanos))
        ⟨uptime, pingText probe⟩ := by
  refine ⟨rfl, ?_⟩
  simp [infoGetterIter, infoGetterWait, infoGetterMeasureTime, durationSub,
    h1, h2]

/-- Claim C8 witness: both disconnection exits at concrete values. -/
theorem channel_disconnection_is_normal_exit_witness :
    heartbeatSenderIter ("", "") .disconnected = none ∧
    infoGetterIter (2 * msNanos) 0 .timeout none "up 5m" (5 * msNanos)
      false =
      .exitDisconnected (min (5 * msNanos) (2 * msNanos - msNanos))
        ⟨"up 5m", pingText none⟩ :=
  channel_disconnection_is_normal_exit ("", "") (2 * msNanos) 0
    (5 * msNanos) none "up 5m" (by decide) (by decide)

/-- Claim C9: for any interval of at least 1ms, every reachable
`measure_time` value is at most `interval - 1ms`, so the timed-wait
subtraction never underflows and the wait is at least 1ms. -/
theorem measure_time_invariant (interval c : Nat) (h : msNanos ≤ interval)
    (hr : ReachableCost interval c) :
    c ≤ interval - msNanos ∧
    infoGetterWait interval c = some (interval - c) ∧
    msNanos ≤ interval - c := by
  induction hr with
  | init =>
    refine ⟨Nat.zero_le _, ?_, ?_⟩
    · simp [infoGetterWait, durationSub]
    · omega
  | step c e c' hrc hupd ih =>
    rw [measureTime_eq interval e h] at hupd
    have hc' : min e (interval - msNanos) = c' := Option.some.inj hupd
    have hb : c' ≤ interval - msNanos := by
      rw [← hc']; exact Nat.min_le_right _ _
    have hci : c' ≤ interval := le_trans hb (Nat.sub_le _ _)
    refine ⟨hb, ?_, ?_⟩
    · simp [infoGetterWait, durationSub, hci]
    · omega

/-- Claim C9 witness: the invariant at the initial cost. -/
theorem measure_time_invariant_witness :
    0 ≤ 2 * msNanos - msNanos ∧
    infoGetterWait (2 * msNanos) 0 = some (2 * msNanos - 0) ∧
    msNanos ≤ 2 * msNanos - 0 :=
  measure_time_invariant (2 * msNanos) 0 (by decide) ReachableCost.init

/-- Claim C10: for any parsed URL without a host, construction fails with
the error `no host in url`, whatever the scheme is — the host check
precedes the scheme check. -/
theorem no_host_error_checked_before_scheme (u : UrlModel)
    (args : ArgsModel) (h : u.host = none) :
    watchdogTryFrom (some u) args = .error "no host in url" := by
  simp [watchdogTryFrom, h]

/-- Claim C10 witness: a host-less URL whose scheme is also disallowed is
still reported as a host error. -/
theorem no_host_error_checked_before_scheme_witness :
    watchdogTryFrom (some hostlessUrl) sampleArgs =
      .error "no host in url" ∧
    strContains hostlessUrl.scheme "http" = false :=
  ⟨no_host_error_checked_before_scheme hostlessUrl sampleArgs rfl,
    by decide⟩

end Swatchdog
